import Mathlib

/-!
Verification of the resumable upload engine in `upload_video.py`.

The Python source is shallowly embedded: the retry loop `resumable_upload`
(lines 106-142) becomes a recursive function over a scripted list of chunk
outcomes (what each `insert_request.next_chunk()` call does), the metadata
builder `initialize_upload` (lines 82-103) becomes a pure request builder,
the batch loop of `__main__` (lines 320-352) becomes `process_uploads`, and
the non-interactive file collection (lines 290-309) becomes
`collect_video_files`.  Randomness (`random.random()`) is a stream of
rational draws; real time (`time.sleep`) is recorded, not waited for.
-/

/-- `MAX_RETRIES = 10` (line 25 of the source). -/
def MAX_RETRIES : Nat := 10

/-- `RETRIABLE_STATUS_CODES = [500, 502, 503, 504]` (line 37 of the source). -/
def RETRIABLE_STATUS_CODES : List Nat := [500, 502, 503, 504]

/-- A completion response body, modelled as a string-to-string dictionary
(`response` in the source; only the `id` key is ever read). -/
abbrev ResponseDict := List (String × String)

/-- What one call of `insert_request.next_chunk()` does, as observed by
`resumable_upload`:
* `success none` — the call returns with `response = None` (partial progress);
* `success (some resp)` — the call returns the final response dictionary;
* `httpError s` — the call raises `apiclient.errors.HttpError` with HTTP
  status `s`;
* `retriableException` — the call raises one of the transport-level
  `RETRIABLE_EXCEPTIONS` (lines 28-33: connection reset, incomplete read,
  bad status line, I/O error, ...). -/
inductive ChunkOutcome where
  | success (response : Option ResponseDict)
  | httpError (status : Nat)
  | retriableException
deriving DecidableEq

/-- A retriable outcome: a transport-level exception, or an `HttpError`
whose status is in `RETRIABLE_STATUS_CODES`. -/
def ChunkOutcome.isRetriable : ChunkOutcome → Bool
  | .success _ => false
  | .httpError s => decide (s ∈ RETRIABLE_STATUS_CODES)
  | .retriableException => true

/-- How `resumable_upload` terminates:
* `videoId i` — `return response['id']` (line 118);
* `unexpectedResponse` — `return None` after a completion response without
  an `id` field (line 121);
* `retriesExhausted` — `return None` after `retry > MAX_RETRIES` (line 135);
* `raisedHttpError s` — the bare `raise` for a non-retriable HTTP status
  (line 126), propagating the exception to the caller. -/
inductive DriverOutcome where
  | videoId (id : String)
  | unexpectedResponse
  | retriesExhausted
  | raisedHttpError (status : Nat)
deriving DecidableEq

/-- One iteration of the `while response is None` loop: the outcome of the
`next_chunk` call, the value of `retry` before and after the iteration, and
the backoff sleep performed at the end of the iteration, if any. -/
structure IterEvent where
  outcome : ChunkOutcome
  retryBefore : Nat
  retryAfter : Nat
  sleep : Option ℚ
deriving DecidableEq

/-- The `try`/`except` block of the loop body (lines 112-128): either an
early exit from the function (return or uncaught raise), or the call
returned with `response` still `None`, or a retriable error was recorded
in `error`. -/
inductive TryResult where
  | ret (r : DriverOutcome)
  | progressed
  | erred
deriving DecidableEq

/-- Lines 112-128 of the source, for one scripted outcome of
`next_chunk()`. A returned response with an `id` key exits with that id;
one without exits with `None`; an `HttpError` with retriable status or a
transport exception records an error; any other `HttpError` is re-raised. -/
def tryChunk : ChunkOutcome → TryResult
  | .success none => .progressed
  | .success (some resp) =>
      match resp.lookup "id" with
      | some i => .ret (.videoId i)
      | none => .ret .unexpectedResponse
  | .httpError s =>
      if s ∈ RETRIABLE_STATUS_CODES then .erred else .ret (.raisedHttpError s)
  | .retriableException => .erred

/-- The `while response is None` loop of `resumable_upload` (lines
111-142). `retry` is the source's counter, `k` indexes the stream `rands`
of `random.random()` draws, and the scripted `outcomes` list supplies the
behaviour of each `next_chunk()` call. Returns the terminal outcome
(`none` when the script runs out while the loop would continue) together
with the trace of loop iterations actually executed. After an `erred`
iteration the source increments `retry`, returns `None` when
`retry > MAX_RETRIES`, and otherwise sleeps
`random.random() * 2 ** retry` seconds (lines 130-141); the source never
resets `retry` on a successful chunk. -/
def resumable_upload_go (rands : Nat → ℚ) :
    Nat → Nat → List ChunkOutcome → Option DriverOutcome × List IterEvent
  | _, _, [] => (none, [])
  | retry, k, o :: rest =>
    match tryChunk o with
    | .ret r => (some r, [⟨o, retry, retry, none⟩])
    | .progressed =>
        let p := resumable_upload_go rands retry k rest
        (p.1, ⟨o, retry, retry, none⟩ :: p.2)
    | .erred =>
        let retry' := retry + 1
        if retry' > MAX_RETRIES then
          (some .retriesExhausted, [⟨o, retry, retry', none⟩])
        else
          let s := rands k * 2 ^ retry'
          let p := resumable_upload_go rands retry' (k + 1) rest
          (p.1, ⟨o, retry, retry', some s⟩ :: p.2)

/-- `resumable_upload` (lines 106-142): the loop starts with `retry = 0`
and no random draws consumed. -/
def resumable_upload (rands : Nat → ℚ) (outcomes : List ChunkOutcome) :
    Option DriverOutcome × List IterEvent :=
  resumable_upload_go rands 0 0 outcomes

/-- Modelled from the spec: the byte-progress bookkeeping of
`next_chunk()` lives in the external `apiclient` library, not in this
repository. Per the spec's protocol shape (section 6) and UploadSession
invariant (section 3), each `next_chunk()` call leaves a `bytesSent`
cursor; a run pairs each scripted outcome with the cursor value after
that call. -/
structure ProtocolRun where
  fileLength : Nat
  steps : List (ChunkOutcome × Nat)
deriving DecidableEq

/-- Modelled from the spec: a run conforms to the protocol when, starting
from `bytesSent = 0`, the cursor is non-decreasing, never exceeds
`fileLength`, stays put on a failed call, and a terminal response
(`success (some _)`) is delivered only once all bytes are sent. -/
def conformingFrom (fileLength : Nat) : Nat → List (ChunkOutcome × Nat) → Bool
  | _, [] => true
  | prev, (o, b) :: rest =>
    decide (prev ≤ b) && decide (b ≤ fileLength) &&
    (match o with
     | .success (some _) => decide (b = fileLength)
     | .success none => true
     | .httpError _ => decide (b = prev)
     | .retriableException => decide (b = prev)) &&
    conformingFrom fileLength b rest

/-- A protocol-conforming run (cursor starts at 0). -/
def ProtocolRun.Conforming (run : ProtocolRun) : Bool :=
  conformingFrom run.fileLength 0 run.steps

/-- The scripted chunk outcomes of a protocol run, as consumed by
`resumable_upload`. -/
def ProtocolRun.outcomes (run : ProtocolRun) : List ChunkOutcome :=
  run.steps.map Prod.fst

/-- What `initialize_upload(...)` (which tail-calls `resumable_upload`)
does for one file, as seen by the `__main__` batch loop (lines 339-352):
it returns a string id, returns `None`, raises an `HttpError`, or raises
some other exception. -/
inductive FileOutcome where
  | returnedId (id : String)
  | returnedNone
  | raisedHttp (status : Nat)
  | raisedOther
deriving DecidableEq

/-- How a terminal `DriverOutcome` of `resumable_upload` surfaces to the
batch loop: returned ids and the two `return None` paths come back as
values, while a non-retriable `HttpError` propagates as an exception
caught by the loop's `except HttpError` arm (line 347). -/
def FileOutcome.ofDriver : DriverOutcome → FileOutcome
  | .videoId i => .returnedId i
  | .unexpectedResponse => .returnedNone
  | .retriesExhausted => .returnedNone
  | .raisedHttpError s => .raisedHttp s

/-- The `for video_file in video_files` batch loop of `__main__` (lines
320-352): each file is processed in turn; `if video_id:` (line 342, Python
truthiness, so an empty string counts as falsy) appends
`(name, video_id)` to `successful_uploads`, every other outcome —
`None` returned, `HttpError` raised, any other exception — appends the
name to `failed_uploads`, and the loop continues with the remaining
files. Returns `(successful_uploads, failed_uploads)`. -/
def process_uploads : List (String × FileOutcome) →
    List (String × String) × List String
  | [] => ([], [])
  | (name, oc) :: rest =>
    let p := process_uploads rest
    match oc with
    | .returnedId id =>
        if id.isEmpty then (p.1, name :: p.2) else ((name, id) :: p.1, p.2)
    | .returnedNone => (p.1, name :: p.2)
    | .raisedHttp _ => (p.1, name :: p.2)
    | .raisedOther => (p.1, name :: p.2)

/-- JSON-like values appearing in the session-open request body. -/
inductive Json where
  | str (s : String)
  | arr (xs : List String)
  | obj (fields : List (String × Json))
  | null

/-- The top-level keys of a JSON object (`body.keys()` in the source). -/
def Json.topKeys : Json → List String
  | .obj fields => fields.map Prod.fst
  | _ => []

/-- Line 83 of the source:
`tags = keywords.split(",") if keywords else None` — Python string
truthiness, so the empty string yields `None`, any other string yields
its comma-split (Python `str.split(",")` and Lean `String.splitOn ","`
agree on every non-empty input: order-preserving, empty pieces kept). -/
def tags_of_keywords (keywords : String) : Option (List String) :=
  if keywords.isEmpty then none else some (keywords.splitOn ",")

/-- The `body` dict built at lines 85-95: a `snippet` object holding
`title`, `description`, `tags` and `categoryId`, and a `status` object
holding `privacyStatus`. A `None` tags value is the JSON null. -/
def upload_body (title description keywords category privacy_status : String) :
    Json :=
  Json.obj
    [("snippet", Json.obj
        [("title", .str title),
         ("description", .str description),
         ("tags", match tags_of_keywords keywords with
                  | some ts => .arr ts
                  | none => .null),
         ("categoryId", .str category)]),
     ("status", Json.obj [("privacyStatus", .str privacy_status)])]

/-- The `youtube.videos().insert(...)` request built at lines 97-101:
`part` is `",".join(body.keys())`, `body` the metadata dict, and the
media body is `MediaFileUpload(file_path, chunksize=-1, resumable=True)`. -/
structure InsertRequest where
  part : String
  body : Json
  media_path : String
  chunksize : Int
  resumable : Bool

/-- `initialize_upload` (lines 82-103), up to the request it hands to
`resumable_upload`. -/
def initialize_upload
    (file_path title description keywords category privacy_status : String) :
    InsertRequest :=
  let body := upload_body title description keywords category privacy_status
  { part := String.intercalate "," body.topKeys
    body := body
    media_path := file_path
    chunksize := -1
    resumable := true }

/-- Python truthiness of `args.files` (an optional list of strings):
truthy exactly when present and non-empty. -/
def pyTruthyFiles : Option (List String) → Bool
  | some fs => !fs.isEmpty
  | none => false

/-- Python truthiness of `args.file` (an optional string): truthy exactly
when present and non-empty. -/
def pyTruthyFile : Option String → Bool
  | some s => !s.isEmpty
  | none => false

/-- Non-interactive file collection, lines 290-306 of `__main__`:
`if args.files:` keeps every listed path that exists (a missing path only
prints a warning); `elif args.file:` keeps the single path if it exists
and otherwise `exit`s; with neither argument it `exit`s asking for one.
`exit(msg)` is modelled as `Except.error msg`. -/
def collect_video_files (filesArg : Option (List String))
    (fileArg : Option String) (pathExists : String → Bool) :
    Except String (List String) :=
  if pyTruthyFiles filesArg then
    .ok ((filesArg.getD []).filter pathExists)
  else if pyTruthyFile fileArg then
    let f := fileArg.getD ""
    if pathExists f then .ok [f]
    else .error ("File not found: " ++ f)
  else
    .error "Please specify video file(s) using --file, --files, or use --interactive mode."

/-- Lines 290-309: file collection followed by the
`if not video_files: exit("No valid video files to upload.")` guard
(lines 308-309). -/
def noninteractive_video_files (filesArg : Option (List String))
    (fileArg : Option String) (pathExists : String → Bool) :
    Except String (List String) :=
  match collect_video_files filesArg fileArg pathExists with
  | .error e => .error e
  | .ok fs => if fs.isEmpty then .error "No valid video files to upload." else .ok fs

/-! ## Helper lemmas about the loop body -/

theorem tryChunk_erred_iff (o : ChunkOutcome) :
    tryChunk o = .erred ↔ o.isRetriable = true := by
  cases o with
  | success r =>
      cases r with
      | none => simp [tryChunk, ChunkOutcome.isRetriable]
      | some resp =>
          cases h : resp.lookup "id" <;>
            simp [tryChunk, ChunkOutcome.isRetriable, h]
  | httpError s =>
      by_cases h : s ∈ RETRIABLE_STATUS_CODES <;>
        simp [tryChunk, ChunkOutcome.isRetriable, h]
  | retriableException => simp [tryChunk, ChunkOutcome.isRetriable]

theorem tryChunk_ret_not_retriable (o : ChunkOutcome) (r : DriverOutcome)
    (h : tryChunk o = .ret r) : o.isRetriable = false := by
  by_cases hr : o.isRetriable = true
  · rw [← tryChunk_erred_iff] at hr; rw [h] at hr; cases hr
  · simpa using hr

/-- A run whose result was `return response['id']` got that id from a
returned response dictionary carrying an `id` key. -/
theorem tryChunk_eq_videoId (o : ChunkOutcome) (i : String)
    (h : tryChunk o = .ret (.videoId i)) :
    ∃ resp : ResponseDict, o = .success (some resp) ∧ resp.lookup "id" = some i := by
  cases o with
  | success r =>
      cases r with
      | none => simp [tryChunk] at h
      | some resp =>
          cases hl : resp.lookup "id" with
          | none => rw [tryChunk, hl] at h; cases h
          | some j =>
              rw [tryChunk, hl] at h
              exact ⟨resp, rfl, by injection h with h1; injection h1 with h2; rw [hl, h2]⟩
  | httpError s =>
      by_cases hs : s ∈ RETRIABLE_STATUS_CODES <;> simp [tryChunk, hs] at h
  | retriableException => simp [tryChunk] at h

/-- In every trace of the loop, an iteration changes the `retry` counter by
exactly the classification of its outcome: a retriable failure increments
it by one, every other outcome (successful chunk included) leaves it
unchanged — in particular, the counter is never reset to 0. -/
theorem go_retry_step (rands : Nat → ℚ) :
    ∀ (outcomes : List ChunkOutcome) (retry k : Nat) (ev : IterEvent),
      ev ∈ (resumable_upload_go rands retry k outcomes).2 →
      ev.retryAfter = if ev.outcome.isRetriable then ev.retryBefore + 1
        else ev.retryBefore := by
  intro outcomes
  induction outcomes with
  | nil => intro retry k ev hev; simp [resumable_upload_go] at hev
  | cons o rest ih =>
      intro retry k ev hev
      rw [resumable_upload_go] at hev
      cases ho : tryChunk o with
      | ret r =>
          rw [ho] at hev
          simp only [List.mem_singleton] at hev
          subst hev
          simp [tryChunk_ret_not_retriable o r ho]
      | progressed =>
          rw [ho] at hev
          simp only [List.mem_cons] at hev
          rcases hev with hev | hev
          · subst hev
            have : o = ChunkOutcome.success none := by
              cases o with
              | success r =>
                  cases r with
                  | none => rfl
                  | some resp => cases hl : resp.lookup "id" <;> rw [tryChunk, hl] at ho <;> cases ho
              | httpError s =>
                  by_cases hs : s ∈ RETRIABLE_STATUS_CODES <;> simp [tryChunk, hs] at ho
              | retriableException => simp [tryChunk] at ho
            simp [this, ChunkOutcome.isRetriable]
          · exact ih retry k ev hev
      | erred =>
          have hretr : o.isRetriable = true := (tryChunk_erred_iff o).mp ho
          rw [ho] at hev
          by_cases hmax : retry + 1 > MAX_RETRIES
          · rw [if_pos hmax] at hev
            simp only [List.mem_singleton] at hev
            subst hev
            simp [hretr]
          · rw [if_neg hmax] at hev
            simp only [List.mem_cons] at hev
            rcases hev with hev | hev
            · subst hev; simp [hretr]
            · exact ih (retry + 1) (k + 1) ev hev

/-- A stream of zero random draws. -/
def zeroRands : Nat → ℚ := fun _ => 0

/-- A run in which a chunk succeeds (partial progress) after one retriable
failure, then a second retriable failure occurs, then the upload completes. -/
def c1_outcomes : List ChunkOutcome :=
  [.retriableException, .success none, .retriableException,
   .success (some [("id", "x")])]

/-- C1 counterexample: in the run `c1_outcomes`, the second iteration is a
successful chunk transmission coming after one retriable failure, yet the
retry counter immediately after that success is 1, not 0, and the
following retriable failure is counted as attempt 2, not attempt 1 — the
source never resets `retry` on a successful chunk. -/
theorem C1_counterexample :
    (resumable_upload zeroRands c1_outcomes).2[1]? =
      some ⟨.success none, 1, 1, none⟩ ∧
    ((resumable_upload zeroRands c1_outcomes).2.map IterEvent.retryAfter) =
      [1, 1, 2, 2] ∧ (1 : Nat) ≠ 0 := by
  refine ⟨by decide, by decide, by decide⟩

/-- C1 (amended): the retry counter of `resumable_upload` is never reset:
across every iteration of every run, a retriable failure increments it by
one and every other outcome — a successful chunk transmission included —
leaves it unchanged, so a retriable failure after a success continues
counting from the pre-success value rather than restarting at 1. -/
theorem C1_retry_counter_not_reset (rands : Nat → ℚ)
    (outcomes : List ChunkOutcome) (ev : IterEvent)
    (hev : ev ∈ (resumable_upload rands outcomes).2) :
    ev.retryAfter = if ev.outcome.isRetriable then ev.retryBefore + 1
      else ev.retryBefore :=
  go_retry_step rands outcomes 0 0 ev hev

/-- Witness for C1: the successful second iteration of `c1_outcomes`
keeps the counter at its pre-success value 1. -/
theorem C1_retry_counter_not_reset_witness :
    (⟨.success none, 1, 1, none⟩ : IterEvent).retryAfter =
      if (⟨.success none, 1, 1, none⟩ : IterEvent).outcome.isRetriable
      then (⟨.success none, 1, 1, none⟩ : IterEvent).retryBefore + 1
      else (⟨.success none, 1, 1, none⟩ : IterEvent).retryBefore :=
  C1_retry_counter_not_reset zeroRands c1_outcomes
    ⟨.success none, 1, 1, none⟩ (by decide)

/-- When every scripted outcome is retriable and enough are scripted, the
loop starting at counter `retry ≤ MAX_RETRIES` returns the
retries-exhausted result after exactly `MAX_RETRIES + 1 - retry` further
iterations. -/
theorem go_all_retriable (rands : Nat → ℚ) :
    ∀ (outcomes : List ChunkOutcome) (retry k : Nat),
      (∀ o ∈ outcomes, o.isRetriable = true) → retry ≤ MAX_RETRIES →
      MAX_RETRIES + 1 - retry ≤ outcomes.length →
      (resumable_upload_go rands retry k outcomes).1 = some .retriesExhausted ∧
      (resumable_upload_go rands retry k outcomes).2.length =
        MAX_RETRIES + 1 - retry := by
  intro outcomes
  induction outcomes with
  | nil =>
      intro retry k _ hle hlen
      simp only [List.length_nil] at hlen
      omega
  | cons o rest ih =>
      intro retry k hall hle hlen
      have ho : tryChunk o = .erred :=
        (tryChunk_erred_iff o).mpr (hall o (List.mem_cons_self o rest))
      rw [resumable_upload_go, ho]
      by_cases hmax : retry + 1 > MAX_RETRIES
      · rw [if_pos hmax]
        constructor
        · rfl
        · simp only [List.length_singleton]
          omega
      · rw [if_neg hmax]
        have hrest := ih (retry + 1) (k + 1)
          (fun o ho => hall o (List.mem_cons_of_mem _ ho))
          (by omega)
          (by simp only [List.length_cons] at hlen; omega)
        refine ⟨hrest.1, ?_⟩
        simp only [List.length_cons, hrest.2]
        omega

/-- C2: when every chunk transmission fails with a retriable error and at
least `MAX_RETRIES + 1 = 11` outcomes are scripted, `resumable_upload`
returns `None` with the retries-exhausted cause and performs exactly 11
transmission attempts — in particular, even when a 12th outcome is
scripted, no 12th attempt is made. -/
theorem C2_retries_exhausted (rands : Nat → ℚ) (outcomes : List ChunkOutcome)
    (hall : ∀ o ∈ outcomes, o.isRetriable = true)
    (hlen : MAX_RETRIES + 1 ≤ outcomes.length) :
    (resumable_upload rands outcomes).1 = some .retriesExhausted ∧
    (resumable_upload rands outcomes).2.length = MAX_RETRIES + 1 :=
  go_all_retriable rands outcomes 0 0 hall (Nat.zero_le _) hlen

/-- Witness for C2: twelve consecutive HTTP 500 responses yield the
retries-exhausted abort after exactly 11 attempts. -/
theorem C2_retries_exhausted_witness :
    (resumable_upload zeroRands (List.replicate 12 (.httpError 500))).1 =
      some .retriesExhausted ∧
    (resumable_upload zeroRands (List.replicate 12 (.httpError 500))).2.length =
      MAX_RETRIES + 1 :=
  C2_retries_exhausted zeroRands (List.replicate 12 (.httpError 500))
    (by decide) (by decide)

/-- C3: at any point of a run (counter `r`, draw index `k`), a chunk
attempt is classified exactly per the taxonomy. A non-retriable HTTP
error status `s` is fatal: the exception is re-raised at once, the trace
ends with that single un-slept iteration and the scripted remainder is
never consulted. A transport-level exception or an HTTP error with status
in {500, 502, 503, 504} is retriable: (while the retry ceiling of C2 is
not yet reached) the iteration ends in a backoff sleep and the run's
result is whatever the continuation on the remaining outcomes produces,
so the failure itself never reaches the caller. -/
theorem C3_failure_classification (rands : Nat → ℚ) (r k s : Nat)
    (o : ChunkOutcome) (rest : List ChunkOutcome) :
    (o = .httpError s → s ∉ RETRIABLE_STATUS_CODES →
      resumable_upload_go rands r k (o :: rest) =
        (some (.raisedHttpError s), [⟨o, r, r, none⟩])) ∧
    (o.isRetriable = true → r < MAX_RETRIES →
      resumable_upload_go rands r k (o :: rest) =
        ((resumable_upload_go rands (r + 1) (k + 1) rest).1,
         ⟨o, r, r + 1, some (rands k * 2 ^ (r + 1))⟩ ::
           (resumable_upload_go rands (r + 1) (k + 1) rest).2)) := by
  constructor
  · intro ho hs
    subst ho
    rw [resumable_upload_go, tryChunk, if_neg hs]
  · intro hretr hr
    rw [resumable_upload_go, (tryChunk_erred_iff o).mpr hretr,
      if_neg (by omega : ¬ r + 1 > MAX_RETRIES)]

/-- Witness for C3: a 403 aborts at once with no retry; a 503 backs off
and hands control to the continuation. -/
theorem C3_failure_classification_witness :
    (resumable_upload_go zeroRands 0 0 [.httpError 403] =
      (some (.raisedHttpError 403), [⟨.httpError 403, 0, 0, none⟩])) ∧
    (resumable_upload_go zeroRands 0 0 [.httpError 503] =
      ((resumable_upload_go zeroRands 1 1 []).1,
       ⟨.httpError 503, 0, 1, some (zeroRands 0 * 2 ^ 1)⟩ ::
         (resumable_upload_go zeroRands 1 1 []).2)) :=
  ⟨(C3_failure_classification zeroRands 0 0 403 (.httpError 403) []).1
      rfl (by decide),
   (C3_failure_classification zeroRands 0 0 503 (.httpError 503) []).2
      (by decide) (by decide)⟩

/-- C4: a completion response whose body lacks an `id` key terminates
`resumable_upload` immediately with the `return None` of line 121,
whatever the counter value and whatever outcomes are still scripted: the
trace ends with that single iteration, which performs no backoff sleep
and no retry. -/
theorem C4_missing_id_aborts (rands : Nat → ℚ) (retry k : Nat)
    (resp : ResponseDict) (rest : List ChunkOutcome)
    (h : resp.lookup "id" = none) :
    resumable_upload_go rands retry k (.success (some resp) :: rest) =
      (some .unexpectedResponse,
       [⟨.success (some resp), retry, retry, none⟩]) := by
  rw [resumable_upload_go, tryChunk, h]

/-- Witness for C4: a completion body `{"status": "done"}` without an
`id` key aborts at once even though a retriable outcome is still
scripted after it. -/
theorem C4_missing_id_aborts_witness :
    resumable_upload zeroRands
        [.success (some [("status", "done")]), .httpError 500] =
      (some .unexpectedResponse,
       [⟨.success (some [("status", "done")]), 0, 0, none⟩]) :=
  C4_missing_id_aborts zeroRands 0 0 [("status", "done")]
    [.httpError 500] (by decide)

/-- Every backoff sleep recorded by the loop, whatever the starting
counter, is `rands k * 2 ^ n` with `n` the post-increment counter of its
iteration, hence lies in `[0, 2 ^ n)` when every draw lies in `[0, 1)`. -/
theorem go_sleep_range (rands : Nat → ℚ)
    (hr : ∀ j, 0 ≤ rands j ∧ rands j < 1) :
    ∀ (outcomes : List ChunkOutcome) (retry k : Nat) (ev : IterEvent) (s : ℚ),
      ev ∈ (resumable_upload_go rands retry k outcomes).2 → ev.sleep = some s →
      0 ≤ s ∧ s < 2 ^ ev.retryAfter := by
  intro outcomes
  induction outcomes with
  | nil => intro retry k ev s hev _; simp [resumable_upload_go] at hev
  | cons o rest ih =>
      intro retry k ev s hev hs
      rw [resumable_upload_go] at hev
      cases ho : tryChunk o with
      | ret r =>
          rw [ho] at hev
          simp only [List.mem_singleton] at hev
          subst hev; cases hs
      | progressed =>
          rw [ho] at hev
          simp only [List.mem_cons] at hev
          rcases hev with hev | hev
          · subst hev; cases hs
          · exact ih retry k ev s hev hs
      | erred =>
          rw [ho] at hev
          by_cases hmax : retry + 1 > MAX_RETRIES
          · rw [if_pos hmax] at hev
            simp only [List.mem_singleton] at hev
            subst hev; cases hs
          · rw [if_neg hmax] at hev
            simp only [List.mem_cons] at hev
            rcases hev with hev | hev
            · subst hev
              simp only [Option.some.injEq] at hs
              subst hs
              constructor
              · exact mul_nonneg (hr k).1 (by positivity)
              · calc rands k * 2 ^ (retry + 1)
                    < 1 * 2 ^ (retry + 1) :=
                      mul_lt_mul_of_pos_right (hr k).2 (by positivity)
                  _ = 2 ^ (retry + 1) := one_mul _
            · exact ih (retry + 1) (k + 1) ev s hev hs

/-- C5: in every run whose random draws all lie in `[0, 1)`, every backoff
sleep performed by `resumable_upload` lies in the half-open interval
`[0, 2 ^ n)` seconds, where `n` is the retry counter after the increment
for the failure that caused the sleep (`ev.retryAfter`). -/
theorem C5_backoff_range (rands : Nat → ℚ) (outcomes : List ChunkOutcome)
    (hr : ∀ j, 0 ≤ rands j ∧ rands j < 1) (ev : IterEvent) (s : ℚ)
    (hev : ev ∈ (resumable_upload rands outcomes).2) (hs : ev.sleep = some s) :
    0 ≤ s ∧ s < 2 ^ ev.retryAfter :=
  go_sleep_range rands hr outcomes 0 0 ev s hev hs

/-- Witness for C5: with the zero draw, the first failure's sleep
`0 * 2 ^ 1` lies in `[0, 2 ^ 1)`. -/
theorem C5_backoff_range_witness :
    0 ≤ zeroRands 0 * 2 ^ 1 ∧
    zeroRands 0 * 2 ^ 1 <
      2 ^ (⟨.retriableException, 0, 1, some (zeroRands 0 * 2 ^ 1)⟩ :
        IterEvent).retryAfter :=
  C5_backoff_range zeroRands [.retriableException]
    (fun j => by norm_num [zeroRands])
    ⟨.retriableException, 0, 1, some (zeroRands 0 * 2 ^ 1)⟩
    (zeroRands 0 * 2 ^ 1)
    (List.mem_singleton.mpr rfl) rfl

/-- Unpacking conformance of a run's first step: the tail conforms from
the new cursor, and a completion response is delivered only at the full
file length. -/
theorem conformingFrom_cons (fileLength prev : Nat) (o : ChunkOutcome)
    (b : Nat) (rest : List (ChunkOutcome × Nat))
    (h : conformingFrom fileLength prev ((o, b) :: rest) = true) :
    conformingFrom fileLength b rest = true ∧
    (∀ resp : ResponseDict, o = .success (some resp) → b = fileLength) := by
  rw [conformingFrom.eq_def] at h
  cases o with
  | success r =>
      cases r with
      | none =>
          simp only [Bool.and_eq_true] at h
          exact ⟨h.2, fun resp hresp => by cases hresp⟩
      | some resp =>
          simp only [Bool.and_eq_true, decide_eq_true_eq] at h
          exact ⟨h.2, fun _ _ => h.1.2⟩
  | httpError s =>
      simp only [Bool.and_eq_true] at h
      exact ⟨h.2, fun resp hresp => by cases hresp⟩
  | retriableException =>
      simp only [Bool.and_eq_true] at h
      exact ⟨h.2, fun resp hresp => by cases hresp⟩

/-- In a protocol-conforming tail of a run, a `videoId` result of the loop
comes from a step that delivered a completion response holding that id at
a cursor equal to `fileLength`. -/
theorem go_videoId_step (rands : Nat → ℚ) (fileLength : Nat) :
    ∀ (steps : List (ChunkOutcome × Nat)) (prev retry k : Nat) (i : String),
      conformingFrom fileLength prev steps = true →
      (resumable_upload_go rands retry k (steps.map Prod.fst)).1 =
        some (.videoId i) →
      ∃ st ∈ steps, ∃ resp : ResponseDict,
        st.1 = .success (some resp) ∧ resp.lookup "id" = some i ∧
        st.2 = fileLength := by
  intro steps
  induction steps with
  | nil => intro prev retry k i _ h; simp [resumable_upload_go] at h
  | cons st rest ih =>
      intro prev retry k i hc h
      obtain ⟨o, b⟩ := st
      obtain ⟨hcrest, hcomp⟩ := conformingFrom_cons fileLength prev o b rest hc
      simp only [List.map_cons] at h
      rw [resumable_upload_go] at h
      cases ho : tryChunk o with
      | ret r =>
          rw [ho] at h
          simp only [Option.some.injEq] at h
          subst h
          obtain ⟨resp, hresp, hid⟩ := tryChunk_eq_videoId o i ho
          exact ⟨(o, b), List.mem_cons_self _ _, resp, hresp, hid,
            hcomp resp hresp⟩
      | progressed =>
          rw [ho] at h
          obtain ⟨st', hmem, hrest⟩ := ih b retry k i hcrest h
          exact ⟨st', List.mem_cons_of_mem _ hmem, hrest⟩
      | erred =>
          rw [ho] at h
          by_cases hmax : retry + 1 > MAX_RETRIES
          · rw [if_pos hmax] at h
            simp at h
          · rw [if_neg hmax] at h
            obtain ⟨st', hmem, hrest⟩ := ih b (retry + 1) (k + 1) i hcrest h
            exact ⟨st', List.mem_cons_of_mem _ hmem, hrest⟩

/-- A conforming run ending with a completion response whose `id` field is
the empty string. -/
def c6bad : ProtocolRun := ⟨5, [(.success (some [("id", "")]), 5)]⟩

/-- C6 counterexample: on the protocol-conforming run `c6bad` the driver
reaches its success exit, yet the remote identifier it returns is the
empty string — the source returns `response['id']` without checking it is
non-empty, so "the returned remote identifier is non-empty" fails. -/
theorem C6_counterexample :
    c6bad.Conforming = true ∧
    (resumable_upload zeroRands c6bad.outcomes).1 =
      some (.videoId "") ∧
    String.isEmpty "" = true := by
  refine ⟨by decide, by decide, by decide⟩

/-- C6 (amended): whenever `resumable_upload` succeeds on a
protocol-conforming run — one in which the external transport delivers a
completion response only once `bytesSent` has reached `fileLength` — the
identifier it returns is exactly the `id` field of a completion response
delivered at `bytesSent = fileLength`; the identifier is whatever string
the service sent, not necessarily non-empty. -/
theorem C6_done_implies_all_bytes_sent (run : ProtocolRun) (rands : Nat → ℚ)
    (i : String) (hc : run.Conforming = true)
    (h : (resumable_upload rands run.outcomes).1 = some (.videoId i)) :
    ∃ st ∈ run.steps, ∃ resp : ResponseDict,
      st.1 = .success (some resp) ∧ resp.lookup "id" = some i ∧
      st.2 = run.fileLength :=
  go_videoId_step rands run.fileLength run.steps 0 0 0 i hc h

/-- A conforming run: a retriable 503, partial progress to 2 bytes, then
completion with id `abc` at the full length 3. -/
def c6good : ProtocolRun :=
  ⟨3, [(.httpError 503, 0), (.success none, 2),
       (.success (some [("id", "abc")]), 3)]⟩

/-- Witness for C6: on the conforming run `c6good` the returned id `abc`
stems from the completion step, delivered at the full file length. -/
theorem C6_done_implies_all_bytes_sent_witness :
    ∃ st ∈ c6good.steps, ∃ resp : ResponseDict,
      st.1 = .success (some resp) ∧ resp.lookup "id" = some "abc" ∧
      st.2 = c6good.fileLength :=
  C6_done_implies_all_bytes_sent c6good zeroRands "abc" (by decide) (by decide)

/-- Each file processed by the batch loop lands in exactly one of the two
summary lists. -/
theorem process_uploads_length (files : List (String × FileOutcome)) :
    (process_uploads files).1.length + (process_uploads files).2.length =
      files.length := by
  induction files with
  | nil => simp [process_uploads]
  | cons f rest ih =>
      obtain ⟨name, oc⟩ := f
      cases oc with
      | returnedId id =>
          by_cases h : id.isEmpty <;>
            simp only [process_uploads, h, if_true, if_false, Bool.false_eq_true,
              List.length_cons] <;> omega
      | returnedNone => simp only [process_uploads, List.length_cons]; omega
      | raisedHttp s => simp only [process_uploads, List.length_cons]; omega
      | raisedOther => simp only [process_uploads, List.length_cons]; omega

/-- C7: every file contributes exactly one entry to the successful or the
failed list of the final summary, and a fatal failure of one file — a
non-retriable `HttpError` propagating out of `resumable_upload`, a
`return None` from retry exhaustion or from a protocol violation, or any
other exception — puts that file's name on the failed list while the
remaining files are still processed, their results untouched. -/
theorem C7_batch_failure_isolation (files rest : List (String × FileOutcome))
    (name : String) (s : Nat) :
    ((process_uploads files).1.length + (process_uploads files).2.length =
      files.length) ∧
    (process_uploads ((name, .ofDriver (.raisedHttpError s)) :: rest) =
      ((process_uploads rest).1, name :: (process_uploads rest).2)) ∧
    (process_uploads ((name, .ofDriver .retriesExhausted) :: rest) =
      ((process_uploads rest).1, name :: (process_uploads rest).2)) ∧
    (process_uploads ((name, .ofDriver .unexpectedResponse) :: rest) =
      ((process_uploads rest).1, name :: (process_uploads rest).2)) ∧
    (process_uploads ((name, .raisedOther) :: rest) =
      ((process_uploads rest).1, name :: (process_uploads rest).2)) :=
  ⟨process_uploads_length files, rfl, rfl, rfl, rfl⟩

/-- C8: for every metadata record, the session-open request built by
`initialize_upload` has a JSON body with exactly the two top-level
sections `snippet` and `status`: the snippet holds exactly the title,
description, tags and category id, the status holds the privacy status,
`part` lists the body's keys, and the media upload is declared resumable
over the given file. -/
theorem C8_insert_request_shape
    (fp t d kw c p : String) :
    (initialize_upload fp t d kw c p).body.topKeys = ["snippet", "status"] ∧
    (∃ snippetFields : List (String × Json),
      (initialize_upload fp t d kw c p).body = Json.obj
        [("snippet", Json.obj snippetFields),
         ("status", Json.obj [("privacyStatus", Json.str p)])] ∧
      snippetFields.map Prod.fst =
        ["title", "description", "tags", "categoryId"] ∧
      snippetFields.lookup "title" = some (Json.str t) ∧
      snippetFields.lookup "description" = some (Json.str d) ∧
      snippetFields.lookup "tags" = some
        (match tags_of_keywords kw with
         | some ts => Json.arr ts
         | none => Json.null) ∧
      snippetFields.lookup "categoryId" = some (Json.str c)) ∧
    (initialize_upload fp t d kw c p).part = "snippet,status" ∧
    (initialize_upload fp t d kw c p).resumable = true ∧
    (initialize_upload fp t d kw c p).media_path = fp := by
  refine ⟨rfl, ⟨_, rfl, rfl, rfl, rfl, rfl, rfl⟩, ?_, rfl, rfl⟩
  show String.intercalate "," ["snippet", "status"] = "snippet,status"
  decide

/-- C9: the tags sent to the service come from the keywords string by
Python truthiness and comma-splitting: a non-empty keywords string yields
the order-preserving comma-split list, the empty string yields the absent
value `None` rather than an empty list. -/
theorem C9_tags_derivation (kw : String) (h : ¬ kw = "") :
    tags_of_keywords kw = some (kw.splitOn ",") ∧
    tags_of_keywords "" = none := by
  refine ⟨?_, rfl⟩
  rw [tags_of_keywords, if_neg (by simpa [String.isEmpty_iff] using h)]

/-- Witness for C9 at the keywords string `x,y`. -/
theorem C9_tags_derivation_witness :
    tags_of_keywords "x,y" = some (String.splitOn "x,y" ",") ∧
    tags_of_keywords "" = none :=
  C9_tags_derivation "x,y" (by decide)

/-- C10: missing input files are handled asymmetrically in non-interactive
mode. With a non-empty `--files` list (whatever `--file` says), each
non-existent path is merely skipped: the program keeps exactly the
existing paths, and terminates only if none remain. With `--file` alone,
a single non-existent path terminates the whole program before any
upload, while an existing one yields the one-element (hence non-empty)
file list. -/
theorem C10_missing_file_asymmetry (files : List String)
    (fileArg : Option String) (f : String) (pathExists : String → Bool)
    (hfiles : ¬ files = []) (hf : ¬ f = "") :
    (noninteractive_video_files (some files) fileArg pathExists =
      if (files.filter pathExists).isEmpty
      then .error "No valid video files to upload."
      else .ok (files.filter pathExists)) ∧
    (pathExists f = false →
      noninteractive_video_files none (some f) pathExists =
        .error ("File not found: " ++ f)) ∧
    (pathExists f = true →
      noninteractive_video_files none (some f) pathExists = .ok [f]) := by
  have htf : pyTruthyFiles (some files) = true := by
    simp [pyTruthyFiles, hfiles]
  have htg : pyTruthyFile (some f) = true := by
    simp [pyTruthyFile, ← String.isEmpty_iff, Bool.not_eq_true] at hf ⊢
    exact hf
  refine ⟨?_, ?_, ?_⟩
  · rw [noninteractive_video_files, collect_video_files, if_pos htf]
    simp
  · intro hex
    rw [noninteractive_video_files, collect_video_files]
    simp [pyTruthyFiles, htg, hex]
  · intro hex
    rw [noninteractive_video_files, collect_video_files]
    simp [pyTruthyFiles, htg, hex]

/-- Witness for C10: with `--files a missing`, the missing path is
skipped and `a` is uploaded; with `--file missing`, the program exits
with "File not found"; with `--file a`, the single file is kept. -/
theorem C10_missing_file_asymmetry_witness :
    (noninteractive_video_files (some ["a", "missing"]) none
        (fun s => s == "a") =
      if ((["a", "missing"].filter fun s => s == "a").isEmpty)
      then .error "No valid video files to upload."
      else .ok (["a", "missing"].filter fun s => s == "a")) ∧
    ((fun s => s == "a") "missing" = false →
      noninteractive_video_files none (some "missing") (fun s => s == "a") =
        .error ("File not found: " ++ "missing")) ∧
    ((fun s => s == "a") "missing" = true →
      noninteractive_video_files none (some "missing") (fun s => s == "a") =
        .ok ["missing"]) :=
  C10_missing_file_asymmetry ["a", "missing"] none "missing"
    (fun s => s == "a") (by decide) (by decide)
